import Mathlib

/-!
Verification of the PerioGT checkpoint bootstrap / device-compatibility subsystem.

This file shallowly embeds the relevant Python sources:
  * `services/hpc/periogt_hpc/config.py`   (version parsing, `_resolve_device`)
  * `services/hpc/periogt_hpc/errors.py`   (`PerioGTError`, `map_exception`)
  * `services/modal-api/periogt_runtime/checkpoint_manager.py`
    (`_download_and_verify`, `_extract_zip`, `_build_property_index`,
     `_write_json_atomic`, `_parse_positive_float_env`, `ensure_checkpoints`)
  * `services/hpc/periogt_hpc/runtime.py`  (`_load_property_index`)

Filesystem state is modelled as an explicit record; external effects
(network fetch, MD5 digesting, zip extraction, JSON parsing, the float
parser of the standard library) are parameters of an environment record,
so that theorems quantify over every possible behaviour of those
collaborators.  Machine reals (Python floats used for times and the
staleness threshold) are modelled as rationals.  Python `str` operations
are re-implemented over `List Char` so that every definition reduces in
the kernel.
-/

namespace PerioGT

/-! ## Python string primitives (models of `str` methods used by the sources) -/

/-- Model of Python `str.lower` (the sources only lower ASCII text). -/
def pyLower (s : String) : String := ⟨s.data.map Char.toLower⟩

/-- Whitespace trimming from the left, as in Python `str.strip`. -/
def dropWs (l : List Char) : List Char := l.dropWhile Char.isWhitespace

/-- Model of Python `str.strip` with no arguments. -/
def pyStrip (s : String) : String :=
  ⟨((dropWs s.data).reverse |> dropWs).reverse⟩

/-- Model of Python `str.endswith`. -/
def pyEndsWith (s suffixStr : String) : Bool :=
  suffixStr.data.isSuffixOf s.data

/-- Model of Python `str.startswith`. -/
def pyStartsWith (s prefixStr : String) : Bool :=
  prefixStr.data.isPrefixOf s.data

/-- Model of the Python `in` operator on strings: `listContains s pat`
is `true` iff `pat` occurs as a contiguous substring of `s`. -/
def listContains : List Char → List Char → Bool
  | [], pat => pat.isEmpty
  | c :: rest, pat => pat.isPrefixOf (c :: rest) || listContains rest pat

/-- `pyContains s pat` models Python `pat in s`. -/
def pyContains (s pat : String) : Bool := listContains s.data pat.data

/-- Core of Python `str.replace` for a non-empty pattern `p0 :: ps`:
replaces every non-overlapping occurrence, scanning left to right.  The
fuel argument is kept equal to the length of the scanned list so that
the recursion is structural (and hence kernel-reducible). -/
def replaceCore (p0 : Char) (ps rep : List Char) : Nat → List Char → List Char
  | 0, l => l
  | fuel + 1, l =>
    match l with
    | [] => []
    | c :: rest =>
      if (p0 :: ps).isPrefixOf (c :: rest) then
        rep ++ replaceCore p0 ps rep fuel (rest.drop ps.length)
      else
        c :: replaceCore p0 ps rep fuel rest

/-- Model of Python `str.replace` (the sources only call it with
non-empty patterns; an empty pattern is returned unchanged here). -/
def pyReplace (s pat rep : String) : String :=
  match pat.data with
  | [] => s
  | p0 :: ps => ⟨replaceCore p0 ps rep.data s.data.length s.data⟩

/-- Split a character list on every occurrence of `sep`, keeping empty
pieces, as Python `str.split` with an explicit separator does. -/
def splitOnCh (sep : Char) : List Char → List (List Char)
  | [] => [[]]
  | c :: rest =>
    let r := splitOnCh sep rest
    if c = sep then [] :: r
    else
      match r with
      | t :: ts => (c :: t) :: ts
      | [] => [[c]]

/-- Python `%s` rendering of an `Optional[str]`: `None` prints as `"None"`. -/
def optStr : Option String → String
  | none => "None"
  | some s => s

/-! ## `config.py`: version tuples and the device resolver -/

/-- `MIN_DRIVER_VERSION = (560, 28)` from `config.py`. -/
def minDriverVersion : List Nat := [560, 28]

/-- `MIN_COMPUTE_CAPABILITY = (7, 0)` from `config.py`. -/
def minComputeCapability : Nat × Nat := (7, 0)

/-- The digit characters of one dot-separated token, as collected by the
comprehension `"".join(ch for ch in token if ch.isdigit())`. -/
def tokenDigits (t : List Char) : List Char := t.filter Char.isDigit

/-- Decimal value of a non-empty digit string (`int(digits)`). -/
def digitsToNat (ds : List Char) : Nat :=
  ds.foldl (fun n c => 10 * n + (c.toNat - 48)) 0

/-- The token loop of `_parse_version_tuple`: stop at the first token
with no digit characters, otherwise keep the digits' value. -/
def parseTokens : List (List Char) → List Nat
  | [] => []
  | t :: rest =>
    let ds := tokenDigits t
    if ds.isEmpty then [] else digitsToNat ds :: parseTokens rest

/-- `_parse_version_tuple` from `config.py`: `None` and the empty string
give the empty tuple; otherwise strip, split on `"."`, and collect the
digits of each token until a digit-free token is reached. -/
def parseVersionTuple : Option String → List Nat
  | none => []
  | some v => if v = "" then [] else parseTokens (splitOnCh '.' (pyStrip v).data)

/-- Lexicographic `<` on equal-length `Nat` lists, i.e. Python tuple `<`. -/
def lexLtNat : List Nat → List Nat → Bool
  | [], [] => false
  | [], _ :: _ => true
  | _ :: _, [] => false
  | a :: as, b :: bs => decide (a < b) || (decide (a = b) && lexLtNat as bs)

/-- `_version_lt` from `config.py`: zero-pad the shorter tuple to the
common length, then compare lexicographically. -/
def versionLt (left right : List Nat) : Bool :=
  let maxLen := max left.length right.length
  lexLtNat (left ++ List.replicate (maxLen - left.length) 0)
    (right ++ List.replicate (maxLen - right.length) 0)

/-- Python 2-tuple `<` used for `cap < MIN_COMPUTE_CAPABILITY`. -/
def capLt (c m : Nat × Nat) : Bool :=
  decide (c.1 < m.1) || (decide (c.1 = m.1) && decide (c.2 < m.2))

/-- `PerioGTError` from `errors.py`: a stable code, an operator-facing
message, and optional details (modelled as a string association list). -/
structure PError where
  code : String
  message : String
  details : Option (List (String × String))
deriving DecidableEq, Repr

/-- `torch.device` outcomes relevant to `_resolve_device`. -/
inductive Device
  | cpu
  | cuda
deriving DecidableEq, Repr

/-- The hardware/driver facts probed by `detect_gpu_details` and
`torch.cuda.get_device_capability`: whether `torch` imported, what
`torch.cuda.is_available()` returns, the device name, the compute
capability of device 0, and the `nvidia-smi` driver version string. -/
structure GpuState where
  torchPresent : Bool
  cudaAvailable : Bool
  gpuName : Option String
  capability : Nat × Nat
  driverVersion : Option String
deriving DecidableEq, Repr

/-- `(mode or "auto").lower().strip()` from `_resolve_device`. -/
def pyNormalizeMode (mode : String) : String :=
  pyStrip (pyLower (if mode = "" then "auto" else mode))

/-- Rendering of a capability pair as `f"{cap[0]}.{cap[1]}"`. -/
def capStr (c : Nat × Nat) : String := toString c.1 ++ "." ++ toString c.2

/-- `_resolve_device` from `config.py`, returning the selected device or
the raised `PerioGTError`, together with the warnings logged on the
`auto` fallbacks. -/
def resolveDevice (g : GpuState) (mode : String) :
    Except PError Device × List String :=
  let request := pyNormalizeMode mode
  if request = "auto" ∨ request = "cpu" ∨ request = "cuda" then
    let cudaAvail := g.torchPresent && g.cudaAvailable
    let driverTuple := parseVersionTuple g.driverVersion
    if request = "cpu" then (.ok .cpu, [])
    else if request = "cuda" then
      if !g.torchPresent then
        (.error ⟨"cuda_unavailable",
          "PyTorch is not installed in this environment.", none⟩, [])
      else if !cudaAvail then
        (.error ⟨"cuda_unavailable",
          "PERIOGT_DEVICE=cuda requested but CUDA is unavailable. " ++
          "Set PERIOGT_DEVICE=cpu or ensure --nv GPU support is enabled.", none⟩, [])
      else if capLt g.capability minComputeCapability then
        (.error ⟨"gpu_unsupported",
          "Detected GPU does not meet minimum compute capability 7.0.",
          some [("gpu_name", optStr g.gpuName),
                ("compute_capability", capStr g.capability),
                ("minimum", "7.0")]⟩, [])
      else if !driverTuple.isEmpty && versionLt driverTuple minDriverVersion then
        (.error ⟨"driver_incompatible",
          "NVIDIA driver is too old for CUDA 12.6.",
          some [("detected", optStr g.driverVersion),
                ("minimum", "560.28")]⟩, [])
      else (.ok .cuda, [])
    else
      if !cudaAvail then
        (.ok .cpu, ["CUDA unavailable; falling back to CPU."])
      else if capLt g.capability minComputeCapability then
        (.ok .cpu, ["GPU " ++ optStr g.gpuName ++ " has compute capability " ++
          capStr g.capability ++ " (< 7.0); falling back to CPU."])
      else if !driverTuple.isEmpty && versionLt driverTuple minDriverVersion then
        (.ok .cpu, ["Driver " ++ optStr g.driverVersion ++
          " is older than minimum 560.28; falling back to CPU."])
      else (.ok .cuda, [])
  else
    (.error ⟨"validation_error",
      "PERIOGT_DEVICE must be one of: auto, cpu, cuda.",
      some [("PERIOGT_DEVICE", mode)]⟩, [])

deriving instance DecidableEq for Except

/-- The raised/returned error code of a resolution outcome, if any. -/
def errCode : Except PError Device → Option String
  | .error e => some e.code
  | .ok _ => none

/-! ## `errors.py`: exceptions and `map_exception` -/

/-- Python exceptions observable at the error-mapping boundary: the
class tag and the message (plus the payload for `PerioGTError`). -/
inductive Exc
  | valueError (msg : String)
  | runtimeError (msg : String)
  | periogt (e : PError)
  | other (cls : String) (msg : String)
deriving DecidableEq, Repr

/-- `str(exc)` of the modelled exception. -/
def excMsg : Exc → String
  | .valueError m => m
  | .runtimeError m => m
  | .periogt e => e.message
  | .other _ m => m

/-- `exc.__class__.__name__` of the modelled exception. -/
def excClass : Exc → String
  | .valueError _ => "ValueError"
  | .runtimeError _ => "RuntimeError"
  | .periogt _ => "PerioGTError"
  | .other cls _ => cls

/-- `_classify_value_error` from `errors.py`. -/
def classifyValueError (message : String) : PError :=
  let text := pyLower message
  if pyContains text "unsupported property" then
    ⟨"unsupported_property", message, none⟩
  else if pyContains text "smiles" || pyContains text "connection point" then
    ⟨"validation_error", message, none⟩
  else ⟨"validation_error", message, none⟩

/-- `map_exception` from `errors.py`: pass `PerioGTError` through,
classify `ValueError` messages, otherwise sniff the lowered message for
known phrases, falling back to `internal_error`. -/
def mapException (exc : Exc) : PError :=
  match exc with
  | .periogt e => e
  | .valueError m => classifyValueError m
  | _ =>
    let msg := excMsg exc
    let lowerMsg := pyLower msg
    if pyContains lowerMsg "checksum mismatch" then ⟨"checksum_mismatch", msg, none⟩
    else if pyContains lowerMsg "cuda" && pyContains lowerMsg "unavailable" then
      ⟨"cuda_unavailable", msg, none⟩
    else if pyContains lowerMsg "compute capability" then ⟨"gpu_unsupported", msg, none⟩
    else if pyContains lowerMsg "driver" && pyContains lowerMsg "560.28" then
      ⟨"driver_incompatible", msg, none⟩
    else if pyContains lowerMsg "checkpoint" && pyContains lowerMsg "missing" then
      ⟨"checkpoint_missing", msg, none⟩
    else if pyContains lowerMsg "model" && pyContains lowerMsg "load" then
      ⟨"model_load_failed", msg, none⟩
    else ⟨"internal_error", if msg = "" then excClass exc else msg, none⟩

/-! ## `checkpoint_manager.py`: artifact catalog and property metadata -/

/-- One entry of the `ARTIFACTS` registry: archive name, source URL,
expected MD5 digest. -/
structure Artifact where
  name : String
  url : String
  md5 : String
deriving DecidableEq, Repr

/-- The `ARTIFACTS` dict of `checkpoint_manager.py`, in insertion order. -/
def artifacts : List Artifact :=
  [⟨"pretrained_ckpt.zip",
    "https://zenodo.org/records/17035498/files/pretrained_ckpt.zip?download=1",
    "7adbcfc4da134692e9a2965270321662"⟩,
   ⟨"finetuned_ckpt.zip",
    "https://zenodo.org/records/17035498/files/finetuned_ckpt.zip?download=1",
    "f285c724142aa2c8919f6a736f6e6093"⟩]

/-- `PROPERTY_METADATA.get`: id → (label, units). -/
def propertyMetadata : String → Option (String × String)
  | "eat" => some ("Atomization energy", "eV")
  | "eps" => some ("Dielectric constant (ε)", "")
  | "density" => some ("Density", "g/cm³")
  | "tg" => some ("Glass transition temperature (Tg)", "K")
  | "nc" => some ("Refractive index (nc)", "")
  | "eea" => some ("Electron affinity", "eV")
  | "eip" => some ("Ionization potential", "eV")
  | "xi" => some ("Chi parameter", "")
  | "cp" => some ("Heat capacity (Cp)", "J/(mol·K)")
  | "e_amorph" => some ("Young's modulus (amorphous)", "GPa")
  | "egc" => some ("Band gap (chain)", "eV")
  | "egb" => some ("Band gap (bulk)", "eV")
  | _ => none

/-- One value of the property index: checkpoint path, display label,
unit string (`{"checkpoint": ..., "label": ..., "units": ...}`). -/
structure IndexEntry where
  checkpoint : String
  label : String
  units : String
deriving DecidableEq, Repr

/-! ## Directory trees and `_build_property_index` -/

/-- A directory entry of the `finetuned_ckpt` directory as seen by
`os.listdir`: either a subdirectory (with its own `os.listdir` result)
or a plain file. -/
inductive FsEntry
  | dir (name : String) (files : List String)
  | file (name : String)
deriving DecidableEq, Repr

/-- One result of `root.rglob("*.pth")` in the fallback branch,
described by the directory components below the staging root and the
file name (which matches `*.pth` by construction of the glob). -/
structure RPath where
  dirs : List String
  name : String
deriving DecidableEq, Repr

/-- The on-disk artifact tree under the staging root, as far as
`_build_property_index` observes it: the listing of `finetuned_ckpt`
when that directory exists, and the recursive `*.pth` glob used by the
fallback branch otherwise.  The order of the lists is the filesystem
iteration order. -/
structure Tree where
  finetunedDir : Option (List FsEntry)
  rglobPth : List RPath
deriving DecidableEq, Repr

/-- The `.pth` test of the index builder. -/
def isPth (f : String) : Bool := pyEndsWith f ".pth"

/-- The non-root components of `Path(root).parts` (split on `/`). -/
def rootParts (root : String) : List String :=
  ((splitOnCh '/' root.data).filter (fun l => ¬ l.isEmpty)).map List.asString

/-- `len(Path(root).parts)`, counting the leading `/` of an absolute path. -/
def rootPartsLen (root : String) : Nat :=
  (rootParts root).length + (if pyStartsWith root "/" then 1 else 0)

/-- `Path(root).name`: the last path component (empty for `/`). -/
def rootBaseName (root : String) : String :=
  ((rootParts root).getLast?).getD ""

/-- `"/"`-join of path components. -/
def joinSlash : List String → String
  | [] => ""
  | [p] => p
  | p :: ps => p ++ "/" ++ joinSlash ps

/-- The index entry contributed by one `os.listdir(finetuned_root)`
entry, following the conventional-layout loop of
`_build_property_index`: a subdirectory contributes its first `.pth`
file (if any) under its own name; a top-level `.pth` file contributes
under the identifier derived from its file name. -/
def contribEntry (root : String) : FsEntry → Option (String × IndexEntry)
  | .dir nm files =>
    match files.find? isPth with
    | some f =>
      let meta := (propertyMetadata nm).getD (nm, "")
      some (nm, ⟨root ++ "/finetuned_ckpt/" ++ nm ++ "/" ++ f, meta.1, meta.2⟩)
    | none => none
  | .file nm =>
    if isPth nm then
      let pid := pyReplace (pyReplace nm ".pth" "") "best_model_" ""
      let meta := (propertyMetadata pid).getD (pid, "")
      some (pid, ⟨root ++ "/finetuned_ckpt/" ++ nm, meta.1, meta.2⟩)
    else none

/-- The index entry contributed by one `root.rglob("*.pth")` candidate in
the fallback branch: kept when the file name starts with `best_model`
and the path has at least two components; the property identifier is the
parent directory's name. -/
def contribRglob (root : String) : RPath → Option (String × IndexEntry)
  | ⟨dirs, nm⟩ =>
    if pyStartsWith nm "best_model" && decide (2 ≤ rootPartsLen root + dirs.length + 1) then
      let pid := (dirs.getLast?).getD (rootBaseName root)
      let meta := (propertyMetadata pid).getD (pid, "")
      some (pid, ⟨root ++ "/" ++ joinSlash (dirs ++ [nm]), meta.1, meta.2⟩)
    else none

/-- Python `dict` assignment `d[k] = v`: replace in place if the key is
present, else append. -/
def dictSet : List (String × IndexEntry) → String → IndexEntry →
    List (String × IndexEntry)
  | [], k, v => [(k, v)]
  | (k', v') :: rest, k, v =>
    if k' = k then (k, v) :: rest else (k', v') :: dictSet rest k v

/-- Python `dict` lookup `d.get(k)`. -/
def dictGet (k : String) : List (String × IndexEntry) → Option IndexEntry
  | [] => none
  | (k', v) :: rest => if k' = k then some v else dictGet k rest

/-- The accumulation loop of `_build_property_index`: process the
entries in iteration order, assigning into the index dict. -/
def buildFromList {α : Type} (contrib : α → Option (String × IndexEntry)) :
    List α → List (String × IndexEntry) → List (String × IndexEntry)
  | [], acc => acc
  | e :: rest, acc =>
    match contrib e with
    | some (k, v) => buildFromList contrib rest (dictSet acc k v)
    | none => buildFromList contrib rest acc

/-- `_build_property_index` from `checkpoint_manager.py`: walk the
conventional `finetuned_ckpt` layout when that directory exists, else
fall back to the recursive `best_model*.pth` scan. -/
def buildPropertyIndex (root : String) (t : Tree) : List (String × IndexEntry) :=
  match t.finetunedDir with
  | some entries => buildFromList (contribEntry root) entries []
  | none => buildFromList (contribRglob root) t.rglobPth []

/-! ## Persisted JSON (`_write_json_atomic` with `sort_keys=True`) -/

/-- Code-point comparison of strings as character lists (the order
Python uses when `json.dump(..., sort_keys=True)` sorts `str` keys). -/
def charsLe : List Char → List Char → Bool
  | [], _ => true
  | _ :: _, [] => false
  | a :: as, b :: bs =>
    decide (a.toNat < b.toNat) || (decide (a.toNat = b.toNat) && charsLe as bs)

/-- Key comparison of index items. -/
def keyLe (a b : String × IndexEntry) : Bool := charsLe a.1.data b.1.data

/-- Insertion into a key-sorted list. -/
def insertByKey (p : String × IndexEntry) :
    List (String × IndexEntry) → List (String × IndexEntry)
  | [] => [p]
  | q :: rest => if keyLe p q then p :: q :: rest else q :: insertByKey p rest

/-- Sort an index by key (the effect of `sort_keys=True`). -/
def sortByKey : List (String × IndexEntry) → List (String × IndexEntry)
  | [] => []
  | p :: rest => insertByKey p (sortByKey rest)

/-- Rendering of one index item in the `indent=2` style of `json.dump`
(string escaping is not modelled; the digests at issue never need it). -/
def renderItem (p : String × IndexEntry) : String :=
  "  \"" ++ p.1 ++ "\": \x7b\n    \"checkpoint\": \"" ++ p.2.checkpoint ++
  "\",\n    \"label\": \"" ++ p.2.label ++
  "\",\n    \"units\": \"" ++ p.2.units ++ "\"\n  \x7d"

/-- `", "`-free comma/newline join of rendered items. -/
def joinItems : List String → String
  | [] => ""
  | [x] => x
  | x :: xs => x ++ ",\n" ++ joinItems xs

/-- Rendering of a whole (already sorted) index object. -/
def renderIndex : List (String × IndexEntry) → String
  | [] => "\x7b\x7d"
  | ps => "\x7b\n" ++ joinItems (ps.map renderItem) ++ "\n\x7d"

/-- The bytes `_write_json_atomic` persists for an index:
`json.dump(payload, ..., indent=2, sort_keys=True)`. -/
def serializeIndex (index : List (String × IndexEntry)) : String :=
  renderIndex (sortByKey index)

/-! ## JSON values (`json.load` results) -/

/-- Parsed JSON values, as far as the loaders inspect them. -/
inductive Json
  | null
  | bool (b : Bool)
  | num (q : ℚ)
  | str (s : String)
  | arr (elems : List Json)
  | obj (fields : List (String × Json))

/-- The JSON value corresponding to a built property index. -/
def indexToJson (index : List (String × IndexEntry)) : Json :=
  .obj (index.map fun p =>
    (p.1, .obj [("checkpoint", .str p.2.checkpoint),
                ("label", .str p.2.label),
                ("units", .str p.2.units)]))

/-- `isinstance(data, dict) and data` from `_load_property_index`. -/
def isNonemptyObj : Json → Bool
  | .obj [] => false
  | .obj (_ :: _) => true
  | _ => false

/-! ## Staging-root state and the bootstrap environment -/

/-- The filesystem state of one staging root, as far as
`ensure_checkpoints` reads and writes it: the marker files (content, and
for the downloading marker its mtime), the persisted index bytes, the
archive files present in the root, and the extracted artifact tree.
Times are rationals standing for POSIX timestamps. -/
structure StagingState where
  root : String
  rootExists : Bool
  ready : Option String
  downloading : Option (String × ℚ)
  indexFile : Option String
  zips : List (String × List Nat)
  tree : Tree

/-- External collaborators of the bootstrap, as functions: the clock,
the `PERIOGT_CHECKPOINT_DOWNLOAD_STALE_SECONDS` raw value and the
`float()` parser, the MD5 digest of a byte string, the network fetch
(`urlretrieve`), zip extraction into the current tree (`zipfile`), and
`json.load` on index bytes. -/
structure BootEnv where
  now : ℚ
  staleEnv : Option String
  parseFloat : String → Option ℚ
  md5 : List Nat → String
  fetch : String → Except String (List Nat)
  extract : String → Tree → Except String Tree
  parseJson : String → Option Json

/-- The observable hard-work side effects of a bootstrap run, in order. -/
inductive Effect
  | download (name : String)
  | verifyChecksum (name : String)
  | extractArchive (name : String)
deriving DecidableEq, Repr

/-- Lookup of an archive file in the staging root. -/
def zipGet (name : String) : List (String × List Nat) → Option (List Nat)
  | [] => none
  | (n, b) :: rest => if n = name then some b else zipGet name rest

/-- Writing an archive file into the staging root. -/
def zipSet (zips : List (String × List Nat)) (name : String) (body : List Nat) :
    List (String × List Nat) :=
  match zips with
  | [] => [(name, body)]
  | (n, b) :: rest => if n = name then (name, body) :: rest else (n, b) :: zipSet rest name body

/-- `zip_path.unlink(missing_ok=True)`. -/
def zipDel (name : String) : List (String × List Nat) → List (String × List Nat)
  | [] => []
  | (n, b) :: rest => if n = name then zipDel name rest else (n, b) :: zipDel name rest

/-- `_parse_positive_float_env` from `checkpoint_manager.py`: missing or
blank values give the default, unparseable values give the default, and
values below the minimum are clamped to the minimum. -/
def parsePositiveFloatEnv (raw : Option String) (parseFloat : String → Option ℚ)
    (default minimum : ℚ) : ℚ :=
  match raw with
  | none => default
  | some r =>
    if pyStrip r = "" then default
    else
      match parseFloat r with
      | none => default
      | some value => if value < minimum then minimum else value

/-- The message of the checksum-mismatch `RuntimeError` raised by
`_download_and_verify`. -/
def checksumMismatchMsg (name expected actual : String) : String :=
  "Checksum mismatch for " ++ name ++ ": expected " ++ expected ++ ", got " ++
  actual ++ ". File deleted. Re-run setup to retry."

/-- The download-then-verify tail of `_download_and_verify` (the code
after the cache check): fetch the URL into the root, digest the complete
bytes, and on mismatch delete the file and raise. -/
def fetchAndCheck (env : BootEnv) (a : Artifact) (s : StagingState)
    (tr0 : List Effect) : Except Exc String × StagingState × List Effect :=
  match env.fetch a.url with
  | .error m => (.error (.other "URLError" m), s, tr0 ++ [.download a.name])
  | .ok body =>
    let s1 := { s with zips := zipSet s.zips a.name body }
    let actual := env.md5 body
    if actual = a.md5 then
      (.ok a.name, s1, tr0 ++ [.download a.name, .verifyChecksum a.name])
    else
      (.error (.runtimeError (checksumMismatchMsg a.name a.md5 actual)),
       { s1 with zips := zipDel a.name s1.zips },
       tr0 ++ [.download a.name, .verifyChecksum a.name])

/-- `_download_and_verify` from `checkpoint_manager.py`: keep an
already-present archive whose digest matches, otherwise delete it and
(re-)download with full verification. -/
def downloadAndVerify (env : BootEnv) (a : Artifact) (s : StagingState) :
    Except Exc String × StagingState × List Effect :=
  match zipGet a.name s.zips with
  | some cached =>
    if env.md5 cached = a.md5 then (.ok a.name, s, [.verifyChecksum a.name])
    else fetchAndCheck env a { s with zips := zipDel a.name s.zips } [.verifyChecksum a.name]
  | none => fetchAndCheck env a s []

/-- `_extract_zip` from `checkpoint_manager.py`: extract the archive
into the root (transforming the tree) and delete the archive afterwards;
on an extraction error the archive stays in place. -/
def extractZip (env : BootEnv) (name : String) (s : StagingState) :
    Except Exc Unit × StagingState × List Effect :=
  match env.extract name s.tree with
  | .error m => (.error (.other "BadZipFile" m), s, [.extractArchive name])
  | .ok t => (.ok (), { s with tree := t, zips := zipDel name s.zips }, [.extractArchive name])

/-- The `for name, info in ARTIFACTS.items()` loop of the critical
section: download-verify then extract, in sequence, stopping at the
first failure. -/
def downloadAll (env : BootEnv) : List Artifact → StagingState →
    Except Exc Unit × StagingState × List Effect
  | [], s => (.ok (), s, [])
  | a :: rest, s =>
    match downloadAndVerify env a s with
    | (.error e, s1, tr) => (.error e, s1, tr)
    | (.ok _, s1, tr) =>
      match extractZip env a.name s1 with
      | (.error e, s2, tr2) => (.error e, s2, tr ++ tr2)
      | (.ok _, s2, tr2) =>
        let (r, s3, tr3) := downloadAll env rest s2
        (r, s3, tr ++ tr2 ++ tr3)

/-- The body of the `try:` block of `ensure_checkpoints` (the critical
section): optionally download and extract every artifact, then build the
property index, persist it atomically, write the ready sentinel (content
`"ready"`), and delete the downloading marker. -/
def criticalSection (env : BootEnv) (skipDownload : Bool) (s : StagingState) :
    Except Exc Json × StagingState × List Effect :=
  let step := if skipDownload then (.ok (), s, []) else downloadAll env artifacts s
  match step with
  | (.error e, s1, tr) => (.error e, s1, tr)
  | (.ok _, s1, tr) =>
    let index := buildPropertyIndex s1.root s1.tree
    let s2 := { s1 with indexFile := some (serializeIndex index),
                        ready := some "ready",
                        downloading := none }
    (.ok (indexToJson index), s2, tr)

/-- The `RuntimeError` raised on fresh-lease contention. -/
def bootstrapInProgressExc : Exc :=
  .runtimeError ("Another container is currently downloading checkpoints. " ++
    "This process will retry later.")

/-- The tail of `ensure_checkpoints` after the marker gate: create the
root, write the downloading marker (content `"downloading"`, mtime =
now), run the critical section, and on failure delete the downloading
marker (`unlink(missing_ok=True)`) before re-raising. -/
def claimAndRun (env : BootEnv) (skipDownload : Bool) (s0 : StagingState) :
    Except Exc Json × StagingState × List Effect :=
  let s1 := { s0 with rootExists := true, downloading := some ("downloading", env.now) }
  match criticalSection env skipDownload s1 with
  | (.ok j, s2, tr) => (.ok j, s2, tr)
  | (.error e, s2, tr) => (.error e, { s2 with downloading := none }, tr)

/-- `ensure_checkpoints` from `checkpoint_manager.py` (with
`volume=None`, as in the HPC call sites): the READY fast path, the
self-healing index rebuild, the fresh/stale downloading-marker check,
lease claiming, the critical section, and marker cleanup on failure.
Returns the result (or the raised exception), the final staging state,
and the effect trace. -/
def ensureCheckpoints (env : BootEnv) (skipDownload : Bool) (s : StagingState) :
    Except Exc Json × StagingState × List Effect :=
  match s.ready with
  | some _ =>
    match s.indexFile with
    | some bytes =>
      match env.parseJson bytes with
      | some j => (.ok j, s, [])
      | none => (.error (.valueError "Expecting value: index.json is not valid JSON"), s, [])
    | none =>
      let index := buildPropertyIndex s.root s.tree
      (.ok (indexToJson index), { s with indexFile := some (serializeIndex index) }, [])
  | none =>
    let gate : Except Exc StagingState :=
      match s.downloading with
      | some (_, mtime) =>
        let staleAfter := parsePositiveFloatEnv env.staleEnv env.parseFloat 330 1
        let markerAge := max 0 (env.now - mtime)
        if markerAge ≥ staleAfter then .ok { s with downloading := none }
        else .error bootstrapInProgressExc
      | none => .ok s
    match gate with
    | .error e => (.error e, s, [])
    | .ok s0 => claimAndRun env skipDownload s0

/-! ## `runtime.py`: `_load_property_index` -/

/-- `_load_property_index` from `runtime.py`: missing file raises
`checkpoint_missing`; a parsed value that is not a non-empty JSON object
also raises `checkpoint_missing`; unparseable bytes propagate the JSON
decoder's `ValueError`. -/
def loadPropertyIndex (parseJson : String → Option Json) (root : String)
    (indexFile : Option String) : Except Exc Json :=
  match indexFile with
  | none =>
    .error (.periogt ⟨"checkpoint_missing",
      "Required artifact missing: index.json. Run periogt_hpc setup first.",
      some [("path", root ++ "/index.json")]⟩)
  | some bytes =>
    match parseJson bytes with
    | none => .error (.valueError "Expecting value: index.json is not valid JSON")
    | some data =>
      if isNonemptyObj data then .ok data
      else
        .error (.periogt ⟨"checkpoint_missing",
          "index.json exists but is empty or invalid.",
          some [("path", root ++ "/index.json")]⟩)

deriving instance DecidableEq for StagingState

/-! ## Listing-order equivalence of directory trees

Two `Tree` values describe the same on-disk directory tree when they
differ only in the order in which `os.listdir` / `rglob` enumerate
entries: the entry lists are permutations of one another, and matching
subdirectories have file listings that are permutations of one
another. -/

/-- Same directory entry up to the enumeration order of its files. -/
def EntryEquiv : FsEntry → FsEntry → Prop
  | .dir n1 f1, .dir n2 f2 => n1 = n2 ∧ f1.Perm f2
  | .file n1, .file n2 => n1 = n2
  | _, _ => False

/-- Same directory tree, enumerated in possibly different orders:
pointwise `EntryEquiv` up to a permutation of the listing (and, in the
fallback case, a permutation of the glob results). -/
def TreeSameListing (t1 t2 : Tree) : Prop :=
  match t1.finetunedDir, t2.finetunedDir with
  | some l1, some l2 => ∃ l', List.Forall₂ EntryEquiv l1 l' ∧ l'.Perm l2
  | none, none => t1.rglobPth.Perm t2.rglobPth
  | _, _ => False

/-- A subdirectory holds at most one `.pth` candidate (so "the first
`.pth` file found" does not depend on enumeration order). -/
def dirUnique : FsEntry → Prop
  | .dir _ files => (files.filter isPth).length ≤ 1
  | .file _ => True

/-- The unambiguity conditions under which the builder's output cannot
depend on enumeration order: every subdirectory has at most one `.pth`
candidate, and no property identifier is contributed twice. -/
def TreeOk (root : String) (t : Tree) : Prop :=
  match t.finetunedDir with
  | some l =>
    (∀ e ∈ l, dirUnique e) ∧
    ((l.filterMap (contribEntry root)).map Prod.fst).Nodup
  | none => ((t.rglobPth.filterMap (contribRglob root)).map Prod.fst).Nodup

/-! ## Concrete scenario inputs used by witnesses and counterexamples -/

/-- An environment with no stale-seconds override, an unparseable float
environment, a digest function that always answers `"bad"`, a network
that always serves the bytes `[1, 2, 3]`, extraction that leaves the
tree unchanged, and a JSON parser that recognises only the bytes
`"IDX"`. -/
def envW : BootEnv :=
  { now := 1000, staleEnv := none, parseFloat := fun _ => none,
    md5 := fun _ => "bad", fetch := fun _ => .ok [1, 2, 3],
    extract := fun _ t => .ok t,
    parseJson := fun b => if b = "IDX" then some (.obj [("eps", .str "x")]) else none }

/-- A fully absent staging root holding one conventional checkpoint. -/
def sW : StagingState :=
  { root := "/ckpt", rootExists := true, ready := none, downloading := none,
    indexFile := none, zips := [], tree := ⟨some [.dir "eps" ["best_model.pth"]], []⟩ }

/-- An absent staging root whose artifact tree holds no checkpoint files. -/
def sWempty : StagingState := { sW with tree := ⟨some [], []⟩ }

/-- The same root with a fresh downloading marker (age 10 s). -/
def sWbusy : StagingState := { sW with downloading := some ("downloading", 990) }

/-- The same root in the READY state. -/
def sWready : StagingState := { sW with ready := some "ready", indexFile := some "IDX" }

/-- The same root with the ready marker present but the index lost. -/
def sWheal : StagingState := { sW with ready := some "ready", indexFile := none }

/-- A `tg` property directory holding two `.pth` candidates, listed in
alphabetical order. -/
def tOrd1 : Tree := ⟨some [.dir "tg" ["a.pth", "b.pth"]], []⟩

/-- The same directory tree with the two files enumerated in the
opposite order. -/
def tOrd2 : Tree := ⟨some [.dir "tg" ["b.pth", "a.pth"]], []⟩

/-- Two single-candidate property directories, listed in one order... -/
def tUniq1 : Tree := ⟨some [.dir "eps" ["best_model.pth"], .dir "tg" ["m.pth"]], []⟩

/-- ...and the same tree listed in the opposite order. -/
def tUniq2 : Tree := ⟨some [.dir "tg" ["m.pth"], .dir "eps" ["best_model.pth"]], []⟩

/-! # Supporting lemmas -/

theorem listContains_cons (c : Char) (rest pat : List Char) :
    listContains (c :: rest) pat = (pat.isPrefixOf (c :: rest) || listContains rest pat) := rfl

theorem listContains_self_append (pat l : List Char) :
    listContains (pat ++ l) pat = true := by
  cases pat with
  | nil =>
    cases l with
    | nil => rfl
    | cons c rest => rw [List.nil_append, listContains_cons]; simp [List.isPrefixOf]
  | cons p ps =>
    rw [List.cons_append, listContains_cons]
    have h : (p :: ps).isPrefixOf ((p :: ps) ++ l) = true :=
      List.isPrefixOf_iff_prefix.mpr (List.prefix_append _ _)
    rw [List.cons_append] at h
    rw [h, Bool.true_or]

theorem listContains_append_left (a : List Char) {l pat : List Char}
    (h : listContains l pat = true) : listContains (a ++ l) pat = true := by
  induction a with
  | nil => simpa using h
  | cons c cs ih => rw [List.cons_append, listContains_cons, ih, Bool.or_true]

theorem pyLower_data (s : String) : (pyLower s).data = s.data.map Char.toLower := rfl

/-- The marker-file fields of the staging state are untouched by the
download/verify step. -/
theorem fetchAndCheck_markers (env : BootEnv) (a : Artifact) (s : StagingState)
    (tr0 : List Effect) :
    ((fetchAndCheck env a s tr0).2.1.ready = s.ready ∧
     (fetchAndCheck env a s tr0).2.1.downloading = s.downloading) ∧
    (fetchAndCheck env a s tr0).2.1.root = s.root := by
  unfold fetchAndCheck
  cases env.fetch a.url with
  | error m => exact ⟨⟨rfl, rfl⟩, rfl⟩
  | ok body => dsimp only; split <;> exact ⟨⟨rfl, rfl⟩, rfl⟩

theorem downloadAndVerify_markers (env : BootEnv) (a : Artifact) (s : StagingState) :
    ((downloadAndVerify env a s).2.1.ready = s.ready ∧
     (downloadAndVerify env a s).2.1.downloading = s.downloading) ∧
    (downloadAndVerify env a s).2.1.root = s.root := by
  unfold downloadAndVerify
  cases zipGet a.name s.zips with
  | none => exact fetchAndCheck_markers env a s []
  | some cached =>
    dsimp only
    split
    · exact ⟨⟨rfl, rfl⟩, rfl⟩
    · exact fetchAndCheck_markers env a _ _

theorem extractZip_markers (env : BootEnv) (nm : String) (s : StagingState) :
    ((extractZip env nm s).2.1.ready = s.ready ∧
     (extractZip env nm s).2.1.downloading = s.downloading) ∧
    (extractZip env nm s).2.1.root = s.root := by
  unfold extractZip
  cases env.extract nm s.tree with
  | error m => exact ⟨⟨rfl, rfl⟩, rfl⟩
  | ok t => exact ⟨⟨rfl, rfl⟩, rfl⟩

theorem downloadAll_markers (env : BootEnv) (l : List Artifact) (s : StagingState) :
    ((downloadAll env l s).2.1.ready = s.ready ∧
     (downloadAll env l s).2.1.downloading = s.downloading) ∧
    (downloadAll env l s).2.1.root = s.root := by
  induction l generalizing s with
  | nil => exact ⟨⟨rfl, rfl⟩, rfl⟩
  | cons a rest ih =>
    unfold downloadAll
    rcases hdv : downloadAndVerify env a s with ⟨r1, s1, tr1⟩
    have h1 := downloadAndVerify_markers env a s
    rw [hdv] at h1
    cases r1 with
    | error e => exact h1
    | ok _ =>
      dsimp only
      rcases hex : extractZip env a.name s1 with ⟨r2, s2, tr2⟩
      have h2 := extractZip_markers env a.name s1
      rw [hex] at h2
      cases r2 with
      | error e => exact ⟨⟨h2.1.1.trans h1.1.1, h2.1.2.trans h1.1.2⟩, h2.2.trans h1.2⟩
      | ok _ =>
        dsimp only
        rcases hrec : downloadAll env rest s2 with ⟨r3, s3, tr3⟩
        have h3 := ih s2
        rw [hrec] at h3
        exact ⟨⟨(h3.1.1.trans h2.1.1).trans h1.1.1,
                (h3.1.2.trans h2.1.2).trans h1.1.2⟩,
               (h3.2.trans h2.2).trans h1.2⟩

/-- On success the critical section ends with the ready sentinel written
(content `"ready"`) and the downloading marker removed. -/
theorem criticalSection_ok_markers (env : BootEnv) (skip : Bool) (s : StagingState)
    (j : Json) (s2 : StagingState) (tr : List Effect)
    (h : criticalSection env skip s = (.ok j, s2, tr)) :
    s2.ready = some "ready" ∧ s2.downloading = none := by
  unfold criticalSection at h
  cases skip with
  | true =>
    simp only [if_true] at h
    injection h with h1 h2
    injection h2 with h2 h3
    rw [← h2]
    exact ⟨rfl, rfl⟩
  | false =>
    simp only [if_false, Bool.false_eq_true] at h
    rcases hdl : downloadAll env artifacts s with ⟨r1, s1, tr1⟩
    rw [hdl] at h
    cases r1 with
    | error e => exact absurd h (by simp)
    | ok _ =>
      simp only at h
      injection h with h1 h2
      injection h2 with h2 h3
      rw [← h2]
      exact ⟨rfl, rfl⟩

/-- On failure the critical section leaves the marker files as it found
them (the enclosing handler then removes the downloading marker). -/
theorem criticalSection_error_markers (env : BootEnv) (skip : Bool) (s : StagingState)
    (e : Exc) (s2 : StagingState) (tr : List Effect)
    (h : criticalSection env skip s = (.error e, s2, tr)) :
    s2.ready = s.ready ∧ s2.downloading = s.downloading := by
  unfold criticalSection at h
  cases skip with
  | true =>
    simp only [if_true] at h
    exact absurd h (by simp)
  | false =>
    simp only [if_false, Bool.false_eq_true] at h
    rcases hdl : downloadAll env artifacts s with ⟨r1, s1, tr1⟩
    have hm := downloadAll_markers env artifacts s
    rw [hdl] at h hm
    cases r1 with
    | error e1 =>
      simp only at h
      injection h with h1 h2
      injection h2 with h2 h3
      rw [← h2]
      exact hm.1
    | ok _ => exact absurd h (by simp)

/-! # Claims -/

/-- C1: with the ready marker absent and a downloading marker younger
than the configured staleness threshold (default 330 s), alias
`ensure_checkpoints` raises the dedicated bootstrap-in-progress
`RuntimeError` ("Another container is currently downloading
checkpoints...") and performs no filesystem writes: the staging state is
returned exactly as it was, and no download, verification, or
extraction effect happens. -/
theorem ensure_fresh_marker_blocks (env : BootEnv) (skip : Bool) (s : StagingState)
    (c : String) (mtime : ℚ)
    (hr : s.ready = none) (hd : s.downloading = some (c, mtime))
    (hfresh : max 0 (env.now - mtime) <
      parsePositiveFloatEnv env.staleEnv env.parseFloat 330 1) :
    ensureCheckpoints env skip s = (.error bootstrapInProgressExc, s, []) := by
  unfold ensureCheckpoints
  rw [hr, hd]
  simp only [ge_iff_le, not_le.mpr hfresh, if_false]

/-- C1 witness: a root with a 10-second-old downloading marker and no
environment override is rejected with the in-progress error and left
unchanged. -/
theorem ensure_fresh_marker_blocks_witness :
    ensureCheckpoints envW true sWbusy = (.error bootstrapInProgressExc, sWbusy, []) :=
  ensure_fresh_marker_blocks envW true sWbusy "downloading" 990 rfl rfl
    (by
      show max (0 : ℚ) (1000 - 990) < 330
      norm_num)

/-- C6: on a READY staging root (ready marker and parseable index file
present) `ensure_checkpoints` succeeds with the parsed index, leaves the
state untouched, performs no effects, and a second identical call
returns the identical result. -/
theorem ensure_ready_idempotent (env : BootEnv) (skip : Bool) (s : StagingState)
    (r bytes : String) (j : Json)
    (hr : s.ready = some r) (hi : s.indexFile = some bytes)
    (hp : env.parseJson bytes = some j) :
    ensureCheckpoints env skip s = (.ok j, s, []) ∧
    ensureCheckpoints env skip (ensureCheckpoints env skip s).2.1 = (.ok j, s, []) := by
  have h1 : ensureCheckpoints env skip s = (.ok j, s, []) := by
    unfold ensureCheckpoints
    rw [hr]
    dsimp only
    rw [hi]
    dsimp only
    rw [hp]
  exact ⟨h1, by rw [h1]; exact h1⟩

/-- C6 witness: both calls on a concrete READY root return the same
parsed index and the unchanged state. -/
theorem ensure_ready_idempotent_witness :
    ensureCheckpoints envW true sWready = (.ok (.obj [("eps", .str "x")]), sWready, []) ∧
    ensureCheckpoints envW true (ensureCheckpoints envW true sWready).2.1 =
      (.ok (.obj [("eps", .str "x")]), sWready, []) :=
  ensure_ready_idempotent envW true sWready "ready" "IDX" (.obj [("eps", .str "x")])
    rfl rfl rfl

/-- C7: with the ready marker present but the index file missing,
`ensure_checkpoints` rebuilds the index from the on-disk tree, persists
it, and returns it; the effect trace is empty, so no download, checksum
verification, or archive extraction happens, and nothing else in the
staging root changes. -/
theorem ensure_self_heals (env : BootEnv) (skip : Bool) (s : StagingState) (r : String)
    (hr : s.ready = some r) (hi : s.indexFile = none) :
    ensureCheckpoints env skip s =
      (.ok (indexToJson (buildPropertyIndex s.root s.tree)),
       { s with indexFile := some (serializeIndex (buildPropertyIndex s.root s.tree)) },
       []) := by
  unfold ensureCheckpoints
  rw [hr, hi]

/-- C7 witness: a concrete root with the ready marker and a deleted
index gets its index rebuilt and persisted with no effects. -/
theorem ensure_self_heals_witness :
    ensureCheckpoints envW true sWheal =
      (.ok (indexToJson (buildPropertyIndex sWheal.root sWheal.tree)),
       { sWheal with
           indexFile := some (serializeIndex (buildPropertyIndex sWheal.root sWheal.tree)) },
       []) :=
  ensure_self_heals envW true sWheal "ready" rfl rfl

/-- C8: whenever the critical section fails with some error, the caller
of `ensure_checkpoints` observes exactly that error, and the downloading
marker has been deleted from the final state before the error
propagates; the cleanup itself (an `unlink(missing_ok=True)` state
update) cannot replace the original error. -/
theorem ensure_failure_releases_lease (env : BootEnv) (skip : Bool) (s : StagingState)
    (e : Exc) (s2 : StagingState) (tr : List Effect)
    (hr : s.ready = none) (hd : s.downloading = none)
    (hc : criticalSection env skip
      { s with rootExists := true, downloading := some ("downloading", env.now) } =
        (.error e, s2, tr)) :
    ensureCheckpoints env skip s = (.error e, { s2 with downloading := none }, tr) ∧
    (ensureCheckpoints env skip s).2.1.downloading = none := by
  have h1 : ensureCheckpoints env skip s = (.error e, { s2 with downloading := none }, tr) := by
    unfold ensureCheckpoints
    rw [hr, hd]
    dsimp only
    unfold claimAndRun
    dsimp only
    rw [hc]
  exact ⟨h1, by rw [h1]⟩

/-- After the marker gate, the bootstrap ends with the downloading
marker absent and the ready marker either untouched or written as
`"ready"`. -/
theorem claimAndRun_markers (env : BootEnv) (skip : Bool) (s0 : StagingState) :
    ((claimAndRun env skip s0).2.1.ready = s0.ready ∨
     (claimAndRun env skip s0).2.1.ready = some "ready") ∧
    (claimAndRun env skip s0).2.1.downloading = none := by
  unfold claimAndRun
  dsimp only
  rcases hcs : criticalSection env skip
      { s0 with rootExists := true, downloading := some ("downloading", env.now) } with
    ⟨r, s2, tr⟩
  cases r with
  | ok j =>
    have hm := criticalSection_ok_markers env skip _ j s2 tr hcs
    exact ⟨Or.inr hm.1, hm.2⟩
  | error e =>
    have hm := criticalSection_error_markers env skip _ e s2 tr hcs
    exact ⟨Or.inl hm.1, rfl⟩

/-- C4 (amended): every marker file the coordinator creates carries the
fixed non-empty content the source writes — `"ready"` for the ready
sentinel and `"downloading"` for the downloading marker (whose mtime is
the claim time); markers are otherwise only deleted or left alone. -/
theorem ensure_marker_contents (env : BootEnv) (skip : Bool) (s : StagingState) :
    ((ensureCheckpoints env skip s).2.1.ready = s.ready ∨
     (ensureCheckpoints env skip s).2.1.ready = some "ready") ∧
    ((ensureCheckpoints env skip s).2.1.downloading = s.downloading ∨
     (ensureCheckpoints env skip s).2.1.downloading = none ∨
     (ensureCheckpoints env skip s).2.1.downloading = some ("downloading", env.now)) := by
  unfold ensureCheckpoints
  cases hr : s.ready with
  | some r =>
    dsimp only
    cases hi : s.indexFile with
    | some bytes =>
      dsimp only
      cases hp : env.parseJson bytes <;> exact ⟨Or.inl hr, Or.inl rfl⟩
    | none => exact ⟨Or.inl rfl, Or.inl rfl⟩
  | none =>
    dsimp only
    cases hd : s.downloading with
    | some p =>
      rcases p with ⟨c, mtime⟩
      dsimp only
      by_cases hstale :
          max 0 (env.now - mtime) ≥ parsePositiveFloatEnv env.staleEnv env.parseFloat 330 1
      · rw [if_pos hstale]
        dsimp only
        have hm := claimAndRun_markers env skip { s with downloading := none }
        rw [hr] at hm
        refine ⟨?_, Or.inr (Or.inl hm.2)⟩
        rcases hm.1 with h | h
        · exact Or.inl h
        · exact Or.inr h
      · rw [if_neg hstale]
        dsimp only
        exact ⟨Or.inl hr, Or.inl hd⟩
    | none =>
      dsimp only
      have hm := claimAndRun_markers env skip s
      refine ⟨?_, Or.inr (Or.inl hm.2)⟩
      rcases hm.1 with h | h
      · exact Or.inl (h.trans hr)
      · exact Or.inr h

/-- C4 counterexample: the claim says marker files are written with
empty content; but a successful bootstrap writes the ready sentinel with
the non-empty content `"ready"`. -/
theorem ensure_marker_zero_content_counterexample :
    (ensureCheckpoints envW true sW).2.1.ready = some "ready" ∧ "ready" ≠ "" := by
  exact ⟨by decide, by decide⟩

theorem zipGet_zipDel (name : String) (l : List (String × List Nat)) :
    zipGet name (zipDel name l) = none := by
  induction l with
  | nil => rfl
  | cons p rest ih =>
    rcases p with ⟨n, b⟩
    unfold zipDel
    by_cases hn : n = name
    · rw [if_pos hn]; exact ih
    · rw [if_neg hn]
      unfold zipGet
      rw [if_neg hn]
      exact ih

theorem zipGet_zipSet (name : String) (b : List Nat) (l : List (String × List Nat)) :
    zipGet name (zipSet l name b) = some b := by
  induction l with
  | nil => unfold zipSet zipGet; rw [if_pos rfl]
  | cons p rest ih =>
    rcases p with ⟨n, b'⟩
    unfold zipSet
    by_cases hn : n = name
    · rw [if_pos hn]
      unfold zipGet
      rw [if_pos rfl]
    · rw [if_neg hn]
      unfold zipGet
      rw [if_neg hn]
      exact ih

/-- The lowered checksum-mismatch message contains the phrase
`map_exception` sniffs for. -/
theorem checksumMsg_contains_phrase (name expected actual : String) :
    pyContains (pyLower (checksumMismatchMsg name expected actual))
      "checksum mismatch" = true := by
  unfold pyContains checksumMismatchMsg
  rw [pyLower_data]
  simp only [String.data_append, List.map_append, List.append_assoc]
  have e : ("Checksum mismatch for ".data.map Char.toLower) =
      "checksum mismatch".data ++ " for ".data := by decide
  rw [e, List.append_assoc]
  exact listContains_self_append _ _

theorem checksumMsg_contains_expected (name expected actual : String) :
    pyContains (checksumMismatchMsg name expected actual) expected = true := by
  unfold pyContains checksumMismatchMsg
  simp only [String.data_append, List.append_assoc]
  exact listContains_append_left _ (listContains_append_left _
    (listContains_append_left _ (listContains_self_append _ _)))

theorem checksumMsg_contains_actual (name expected actual : String) :
    pyContains (checksumMismatchMsg name expected actual) actual = true := by
  unfold pyContains checksumMismatchMsg
  simp only [String.data_append, List.append_assoc]
  exact listContains_append_left _ (listContains_append_left _
    (listContains_append_left _ (listContains_append_left _
      (listContains_append_left _ (listContains_self_append _ _)))))

/-- `map_exception` classifies every checksum-mismatch `RuntimeError` as
`checksum_mismatch`. -/
theorem mapException_checksum (name expected actual : String) :
    (mapException (.runtimeError (checksumMismatchMsg name expected actual))).code =
      "checksum_mismatch" := by
  unfold mapException
  dsimp only [excMsg]
  rw [checksumMsg_contains_phrase]
  rfl

theorem fetchAndCheck_ok_sound (env : BootEnv) (a : Artifact) (s : StagingState)
    (tr0 : List Effect) (r : String) (s' : StagingState) (tr : List Effect)
    (h : fetchAndCheck env a s tr0 = (.ok r, s', tr)) :
    ∃ b, zipGet a.name s'.zips = some b ∧ env.md5 b = a.md5 := by
  unfold fetchAndCheck at h
  cases hf : env.fetch a.url with
  | error m => rw [hf] at h; exact absurd h (by simp)
  | ok body =>
    rw [hf] at h
    dsimp only at h
    by_cases hg : env.md5 body = a.md5
    · rw [if_pos hg] at h
      injection h with h1 h2
      injection h2 with h2 h3
      refine ⟨body, ?_, hg⟩
      rw [← h2]
      exact zipGet_zipSet a.name body s.zips
    · rw [if_neg hg] at h
      exact absurd h (by simp)

/-- C5: (a) whenever no valid cached archive exists and the downloaded
byte stream's digest disagrees with the catalog digest,
`_download_and_verify` deletes the downloaded file and raises the
checksum-mismatch `RuntimeError`, whose message carries both digests and
which `map_exception` classifies as `checksum_mismatch`; afterwards no
archive of that name remains in the root; and (b) whenever
`_download_and_verify` returns successfully, the archive on disk has the
expected digest — it never hands back mismatching data. -/
theorem download_verify_checksum_guard :
    (∀ (env : BootEnv) (a : Artifact) (s : StagingState) (body : List Nat),
      zipGet a.name s.zips = none →
      env.fetch a.url = .ok body →
      env.md5 body ≠ a.md5 →
      downloadAndVerify env a s =
        (.error (.runtimeError (checksumMismatchMsg a.name a.md5 (env.md5 body))),
         { s with zips := zipDel a.name (zipSet s.zips a.name body) },
         [.download a.name, .verifyChecksum a.name]) ∧
      zipGet a.name (zipDel a.name (zipSet s.zips a.name body)) = none ∧
      (mapException (.runtimeError (checksumMismatchMsg a.name a.md5 (env.md5 body)))).code =
        "checksum_mismatch" ∧
      pyContains (checksumMismatchMsg a.name a.md5 (env.md5 body)) a.md5 = true ∧
      pyContains (checksumMismatchMsg a.name a.md5 (env.md5 body)) (env.md5 body) = true) ∧
    (∀ (env : BootEnv) (a : Artifact) (s : StagingState) (r : String)
        (s' : StagingState) (tr : List Effect),
      downloadAndVerify env a s = (.ok r, s', tr) →
      ∃ b, zipGet a.name s'.zips = some b ∧ env.md5 b = a.md5) := by
  constructor
  · intro env a s body hmiss hfetch hbad
    refine ⟨?_, zipGet_zipDel a.name _, mapException_checksum _ _ _,
      checksumMsg_contains_expected _ _ _, checksumMsg_contains_actual _ _ _⟩
    unfold downloadAndVerify
    rw [hmiss]
    unfold fetchAndCheck
    rw [hfetch]
    dsimp only
    rw [if_neg hbad]
    rfl
  · intro env a s r s' tr h
    unfold downloadAndVerify at h
    cases hz : zipGet a.name s.zips with
    | none =>
      rw [hz] at h
      exact fetchAndCheck_ok_sound env a s [] r s' tr h
    | some cached =>
      rw [hz] at h
      dsimp only at h
      by_cases hg : env.md5 cached = a.md5
      · rw [if_pos hg] at h
        injection h with h1 h2
        injection h2 with h2 h3
        refine ⟨cached, ?_, hg⟩
        rw [← h2]
        exact hz
      · rw [if_neg hg] at h
        exact fetchAndCheck_ok_sound env a _ _ r s' tr h

/-- C5 witness: feeding the first catalog artifact a stream digesting to
`"bad"` produces the deletion, the mismatch error carrying both digests,
and the `checksum_mismatch` classification. -/
theorem download_verify_checksum_guard_witness :
    downloadAndVerify envW
      ⟨"pretrained_ckpt.zip",
       "https://zenodo.org/records/17035498/files/pretrained_ckpt.zip?download=1",
       "7adbcfc4da134692e9a2965270321662"⟩ sW =
      (.error (.runtimeError (checksumMismatchMsg "pretrained_ckpt.zip"
         "7adbcfc4da134692e9a2965270321662" "bad")),
       { sW with zips := (zipDel "pretrained_ckpt.zip"
           (zipSet sW.zips "pretrained_ckpt.zip" [1, 2, 3])) },
       [.download "pretrained_ckpt.zip", .verifyChecksum "pretrained_ckpt.zip"]) ∧
    zipGet "pretrained_ckpt.zip"
      (zipDel "pretrained_ckpt.zip" (zipSet sW.zips "pretrained_ckpt.zip" [1, 2, 3])) = none ∧
    (mapException (.runtimeError (checksumMismatchMsg "pretrained_ckpt.zip"
       "7adbcfc4da134692e9a2965270321662" "bad"))).code = "checksum_mismatch" ∧
    pyContains (checksumMismatchMsg "pretrained_ckpt.zip"
       "7adbcfc4da134692e9a2965270321662" "bad") "7adbcfc4da134692e9a2965270321662" = true ∧
    pyContains (checksumMismatchMsg "pretrained_ckpt.zip"
       "7adbcfc4da134692e9a2965270321662" "bad") "bad" = true :=
  download_verify_checksum_guard.1 envW
    ⟨"pretrained_ckpt.zip",
     "https://zenodo.org/records/17035498/files/pretrained_ckpt.zip?download=1",
     "7adbcfc4da134692e9a2965270321662"⟩ sW [1, 2, 3]
    rfl rfl (by decide)

/-- C8 witness: a checksum failure inside the critical section surfaces
as the original checksum `RuntimeError` with the marker removed. -/
theorem ensure_failure_releases_lease_witness :
    ensureCheckpoints envW false sW =
      (.error (.runtimeError (checksumMismatchMsg "pretrained_ckpt.zip"
         "7adbcfc4da134692e9a2965270321662" "bad")),
       { sW with rootExists := true, downloading := none },
       [.download "pretrained_ckpt.zip", .verifyChecksum "pretrained_ckpt.zip"]) ∧
    (ensureCheckpoints envW false sW).2.1.downloading = none := by
  have h := ensure_failure_releases_lease envW false sW
    (.runtimeError (checksumMismatchMsg "pretrained_ckpt.zip"
      "7adbcfc4da134692e9a2965270321662" "bad"))
    { sW with rootExists := true, downloading := some ("downloading", (1000 : ℚ)) }
    [.download "pretrained_ckpt.zip", .verifyChecksum "pretrained_ckpt.zip"]
    rfl rfl (by rfl)
  exact h

/-- C9: when the driver version is undetected (or its string parses to
the empty tuple), the driver-minimum check is skipped: with an
accelerator present and capability at or above the minimum, both `cuda`
and `auto` modes select the CUDA device without `driver_incompatible`
and without any fallback warning. -/
theorem resolve_unknown_driver_skips_check (g : GpuState)
    (ht : g.torchPresent = true) (hc : g.cudaAvailable = true)
    (hcap : capLt g.capability minComputeCapability = false)
    (hd : parseVersionTuple g.driverVersion = []) :
    resolveDevice g "cuda" = (.ok .cuda, []) ∧
    resolveDevice g "auto" = (.ok .cuda, []) := by
  have e1 : pyNormalizeMode "cuda" = "cuda" := by decide
  have e2 : pyNormalizeMode "auto" = "auto" := by decide
  constructor
  · unfold resolveDevice
    rw [e1]
    rw [if_pos (by decide : ("cuda" = "auto" ∨ "cuda" = "cpu" ∨ "cuda" = "cuda"))]
    rw [if_neg (by decide : ¬("cuda" = "cpu")),
        if_pos (rfl : "cuda" = "cuda")]
    rw [ht, hc, hd]
    simp [hcap]
  · unfold resolveDevice
    rw [e2]
    rw [if_pos (by decide : ("auto" = "auto" ∨ "auto" = "cpu" ∨ "auto" = "cuda"))]
    rw [if_neg (by decide : ¬("auto" = "cpu")),
        if_neg (by decide : ¬("auto" = "cuda"))]
    rw [ht, hc, hd]
    simp [hcap]

/-- C9 witness: with capability (8, 0) the check is skipped both for the
undetected driver and for the `"N/A"` string (whose first token holds no
digits). -/
theorem resolve_unknown_driver_skips_check_witness :
    (parseVersionTuple (some "N/A") = [] ∧
     resolveDevice ⟨true, true, some "A100", (8, 0), some "N/A"⟩ "cuda" = (.ok .cuda, []) ∧
     resolveDevice ⟨true, true, some "A100", (8, 0), some "N/A"⟩ "auto" = (.ok .cuda, [])) ∧
    (parseVersionTuple none = [] ∧
     resolveDevice ⟨true, true, none, (9, 0), none⟩ "cuda" = (.ok .cuda, []) ∧
     resolveDevice ⟨true, true, none, (9, 0), none⟩ "auto" = (.ok .cuda, [])) := by
  have h1 := resolve_unknown_driver_skips_check
    ⟨true, true, some "A100", (8, 0), some "N/A"⟩ rfl rfl (by decide) (by decide)
  have h2 := resolve_unknown_driver_skips_check
    ⟨true, true, none, (9, 0), none⟩ rfl rfl (by decide) (by decide)
  exact ⟨⟨by decide, h1.1, h1.2⟩, ⟨by decide, h2.1, h2.2⟩⟩

/-- C2 (amended): the §4.5 device-resolution table, applied to the
normalized request (`(mode or "auto").lower().strip()`): `cpu` always
yields CPU; `cuda` fails `cuda_unavailable` without an accelerator,
`gpu_unsupported` below the minimum capability, `driver_incompatible`
below the minimum driver version, and otherwise yields CUDA; `auto`
yields CPU with a warning in each deficient state and CUDA otherwise;
a normalized request outside `{auto, cpu, cuda}` fails
`validation_error`; the empty request resolves exactly like `auto`. -/
theorem resolve_device_table :
    (∀ g : GpuState, resolveDevice g "cpu" = (.ok .cpu, [])) ∧
    (∀ g : GpuState, (g.torchPresent && g.cudaAvailable) = false →
      errCode (resolveDevice g "cuda").1 = some "cuda_unavailable") ∧
    (∀ g : GpuState, g.torchPresent = true → g.cudaAvailable = true →
      capLt g.capability minComputeCapability = true →
      errCode (resolveDevice g "cuda").1 = some "gpu_unsupported") ∧
    (∀ g : GpuState, g.torchPresent = true → g.cudaAvailable = true →
      capLt g.capability minComputeCapability = false →
      parseVersionTuple g.driverVersion ≠ [] →
      versionLt (parseVersionTuple g.driverVersion) minDriverVersion = true →
      errCode (resolveDevice g "cuda").1 = some "driver_incompatible") ∧
    (∀ g : GpuState, g.torchPresent = true → g.cudaAvailable = true →
      capLt g.capability minComputeCapability = false →
      parseVersionTuple g.driverVersion ≠ [] →
      versionLt (parseVersionTuple g.driverVersion) minDriverVersion = false →
      resolveDevice g "cuda" = (.ok .cuda, [])) ∧
    (∀ g : GpuState, (g.torchPresent && g.cudaAvailable) = false →
      (resolveDevice g "auto").1 = .ok .cpu ∧ (resolveDevice g "auto").2 ≠ []) ∧
    (∀ g : GpuState, g.torchPresent = true → g.cudaAvailable = true →
      capLt g.capability minComputeCapability = true →
      (resolveDevice g "auto").1 = .ok .cpu ∧ (resolveDevice g "auto").2 ≠ []) ∧
    (∀ g : GpuState, g.torchPresent = true → g.cudaAvailable = true →
      capLt g.capability minComputeCapability = false →
      parseVersionTuple g.driverVersion ≠ [] →
      versionLt (parseVersionTuple g.driverVersion) minDriverVersion = true →
      (resolveDevice g "auto").1 = .ok .cpu ∧ (resolveDevice g "auto").2 ≠ []) ∧
    (∀ g : GpuState, g.torchPresent = true → g.cudaAvailable = true →
      capLt g.capability minComputeCapability = false →
      parseVersionTuple g.driverVersion ≠ [] →
      versionLt (parseVersionTuple g.driverVersion) minDriverVersion = false →
      resolveDevice g "auto" = (.ok .cuda, [])) ∧
    (∀ (mode : String) (g : GpuState),
      pyNormalizeMode mode ≠ "auto" → pyNormalizeMode mode ≠ "cpu" →
      pyNormalizeMode mode ≠ "cuda" →
      errCode (resolveDevice g mode).1 = some "validation_error") ∧
    (∀ g : GpuState, resolveDevice g "" = resolveDevice g "auto") := by
  have e0 : pyNormalizeMode "cpu" = "cpu" := by decide
  have e1 : pyNormalizeMode "cuda" = "cuda" := by decide
  have e2 : pyNormalizeMode "auto" = "auto" := by decide
  refine ⟨?_, ?_, ?_, ?_, ?_, ?_, ?_, ?_, ?_, ?_, ?_⟩
  · intro g
    unfold resolveDevice
    rw [e0, if_pos (by decide : ("cpu" = "auto" ∨ "cpu" = "cpu" ∨ "cpu" = "cuda")),
        if_pos (rfl : "cpu" = "cpu")]
  · intro g h
    unfold resolveDevice
    rw [e1, if_pos (by decide : ("cuda" = "auto" ∨ "cuda" = "cpu" ∨ "cuda" = "cuda")),
        if_neg (by decide : ¬("cuda" = "cpu")), if_pos (rfl : "cuda" = "cuda")]
    cases ht : g.torchPresent with
    | false => simp [errCode]
    | true =>
      have hc : g.cudaAvailable = false := by simpa [ht] using h
      simp [ht, hc, errCode]
  · intro g ht hc hcap
    unfold resolveDevice
    rw [e1, if_pos (by decide : ("cuda" = "auto" ∨ "cuda" = "cpu" ∨ "cuda" = "cuda")),
        if_neg (by decide : ¬("cuda" = "cpu")), if_pos (rfl : "cuda" = "cuda")]
    simp [ht, hc, hcap, errCode]
  · intro g ht hc hcap hne hlt
    have hie : (parseVersionTuple g.driverVersion).isEmpty = false := by
      cases hl : parseVersionTuple g.driverVersion with
      | nil => exact absurd hl hne
      | cons a as => rfl
    unfold resolveDevice
    rw [e1, if_pos (by decide : ("cuda" = "auto" ∨ "cuda" = "cpu" ∨ "cuda" = "cuda")),
        if_neg (by decide : ¬("cuda" = "cpu")), if_pos (rfl : "cuda" = "cuda")]
    simp [ht, hc, hcap, hie, hlt, errCode]
  · intro g ht hc hcap hne hlt
    unfold resolveDevice
    rw [e1, if_pos (by decide : ("cuda" = "auto" ∨ "cuda" = "cpu" ∨ "cuda" = "cuda")),
        if_neg (by decide : ¬("cuda" = "cpu")), if_pos (rfl : "cuda" = "cuda")]
    simp [ht, hc, hcap, hlt]
  · intro g h
    unfold resolveDevice
    rw [e2, if_pos (by decide : ("auto" = "auto" ∨ "auto" = "cpu" ∨ "auto" = "cuda")),
        if_neg (by decide : ¬("auto" = "cpu")), if_neg (by decide : ¬("auto" = "cuda"))]
    simp [h]
  · intro g ht hc hcap
    unfold resolveDevice
    rw [e2, if_pos (by decide : ("auto" = "auto" ∨ "auto" = "cpu" ∨ "auto" = "cuda")),
        if_neg (by decide : ¬("auto" = "cpu")), if_neg (by decide : ¬("auto" = "cuda"))]
    simp [ht, hc, hcap]
  · intro g ht hc hcap hne hlt
    have hie : (parseVersionTuple g.driverVersion).isEmpty = false := by
      cases hl : parseVersionTuple g.driverVersion with
      | nil => exact absurd hl hne
      | cons a as => rfl
    unfold resolveDevice
    rw [e2, if_pos (by decide : ("auto" = "auto" ∨ "auto" = "cpu" ∨ "auto" = "cuda")),
        if_neg (by decide : ¬("auto" = "cpu")), if_neg (by decide : ¬("auto" = "cuda"))]
    simp [ht, hc, hcap, hie, hlt]
  · intro g ht hc hcap hne hlt
    unfold resolveDevice
    rw [e2, if_pos (by decide : ("auto" = "auto" ∨ "auto" = "cpu" ∨ "auto" = "cuda")),
        if_neg (by decide : ¬("auto" = "cpu")), if_neg (by decide : ¬("auto" = "cuda"))]
    simp [ht, hc, hcap, hlt]
  · intro mode g h1 h2 h3
    unfold resolveDevice
    rw [if_neg (fun h => h.elim h1 (fun h' => h'.elim h2 h3))]
    rfl
  · intro g
    rfl

/-- C2 counterexample: the claim demands `validation_error` for every
requested mode outside `{auto, cpu, accelerator}`, but the empty string
(a mode outside that set) is silently normalized to `auto` and resolved
to CPU without any failure. -/
theorem resolve_device_table_counterexample :
    errCode (resolveDevice ⟨false, false, none, (0, 0), none⟩ "").1 = none ∧
    (resolveDevice ⟨false, false, none, (0, 0), none⟩ "").1 = .ok .cpu ∧
    ¬("" = "auto" ∨ "" = "cpu" ∨ "" = "cuda" ∨ "" = "accelerator") := by
  exact ⟨by decide, by decide, by decide⟩

/-- C2 witness: one concrete instantiation for each guarded row of the
table. -/
theorem resolve_device_table_witness :
    resolveDevice ⟨false, false, none, (0, 0), none⟩ "cpu" = (.ok .cpu, []) ∧
    errCode (resolveDevice ⟨false, false, none, (0, 0), none⟩ "cuda").1 =
      some "cuda_unavailable" ∧
    errCode (resolveDevice ⟨true, true, some "K80", (3, 7), some "560.28"⟩ "cuda").1 =
      some "gpu_unsupported" ∧
    errCode (resolveDevice ⟨true, true, some "T4", (7, 5), some "450.80"⟩ "cuda").1 =
      some "driver_incompatible" ∧
    resolveDevice ⟨true, true, some "T4", (7, 5), some "560.28"⟩ "cuda" = (.ok .cuda, []) ∧
    ((resolveDevice ⟨false, false, none, (0, 0), none⟩ "auto").1 = .ok .cpu ∧
     (resolveDevice ⟨false, false, none, (0, 0), none⟩ "auto").2 ≠ []) ∧
    ((resolveDevice ⟨true, true, some "K80", (3, 7), some "560.28"⟩ "auto").1 = .ok .cpu ∧
     (resolveDevice ⟨true, true, some "K80", (3, 7), some "560.28"⟩ "auto").2 ≠ []) ∧
    ((resolveDevice ⟨true, true, some "T4", (7, 5), some "450.80"⟩ "auto").1 = .ok .cpu ∧
     (resolveDevice ⟨true, true, some "T4", (7, 5), some "450.80"⟩ "auto").2 ≠ []) ∧
    resolveDevice ⟨true, true, some "T4", (7, 5), some "560.28"⟩ "auto" = (.ok .cuda, []) ∧
    errCode (resolveDevice ⟨false, false, none, (0, 0), none⟩ "gpu").1 =
      some "validation_error" := by
  obtain ⟨t1, t2, t3, t4, t5, t6, t7, t8, t9, t10, t11⟩ := resolve_device_table
  refine ⟨t1 _, t2 _ (by decide), t3 _ rfl rfl (by decide),
    t4 _ rfl rfl (by decide) (by decide) (by decide),
    t5 _ rfl rfl (by decide) (by decide) (by decide),
    t6 _ (by decide), t7 _ rfl rfl (by decide),
    t8 _ rfl rfl (by decide) (by decide) (by decide),
    t9 _ rfl rfl (by decide) (by decide) (by decide),
    t10 "gpu" _ (by decide) (by decide) (by decide)⟩

/-- C10: (a) a bootstrap over a tree with no checkpoint files still
succeeds — it persists the empty index `{}` and writes the ready
sentinel; (b) `_load_property_index` rejects an index file whose parsed
value is an empty object (or not an object at all) with a
`checkpoint_missing` `PerioGTError` instead of returning it. -/
theorem empty_index_persisted_but_rejected :
    (∀ (env : BootEnv) (s : StagingState),
      s.ready = none → s.downloading = none →
      buildPropertyIndex s.root s.tree = [] →
      ensureCheckpoints env true s =
        (.ok (.obj []),
         { s with rootExists := true, ready := some "ready", downloading := none,
                  indexFile := some (serializeIndex []) },
         [])) ∧
    (∀ (parseJson : String → Option Json) (root bytes : String) (j : Json),
      parseJson bytes = some j → isNonemptyObj j = false →
      loadPropertyIndex parseJson root (some bytes) =
        .error (.periogt ⟨"checkpoint_missing",
          "index.json exists but is empty or invalid.",
          some [("path", root ++ "/index.json")]⟩)) := by
  constructor
  · intro env s h1 h2 h3
    unfold ensureCheckpoints
    rw [h1]
    dsimp only
    rw [h2]
    dsimp only
    unfold claimAndRun criticalSection
    dsimp only
    rw [if_pos (rfl : true = true)]
    dsimp only
    rw [h3]
    rfl
  · intro parseJson root bytes j hp hj
    unfold loadPropertyIndex
    dsimp only
    rw [hp]
    dsimp only
    rw [hj]
    rfl

/-- C10 witness: a concrete empty tree bootstraps to the empty index
with the ready sentinel, and that persisted empty object is rejected by
the loader as `checkpoint_missing`. -/
theorem empty_index_persisted_but_rejected_witness :
    ensureCheckpoints envW true sWempty =
      (.ok (.obj []),
       { sWempty with rootExists := true, ready := some "ready", downloading := none,
                      indexFile := some (serializeIndex []) },
       []) ∧
    loadPropertyIndex (fun _ => some (.obj [])) "/ckpt" (some (serializeIndex [])) =
      .error (.periogt ⟨"checkpoint_missing",
        "index.json exists but is empty or invalid.",
        some [("path", "/ckpt/index.json")]⟩) :=
  ⟨empty_index_persisted_but_rejected.1 envW sWempty rfl rfl (by decide),
   empty_index_persisted_but_rejected.2 (fun _ => some (.obj [])) "/ckpt"
     (serializeIndex []) (.obj []) rfl rfl⟩

/-! ## Supporting lemmas for the index-builder determinism claim -/

theorem find?_eq_head_filter {α : Type} (p : α → Bool) (l : List α) :
    l.find? p = (l.filter p).head? := by
  induction l with
  | nil => rfl
  | cons a t ih =>
    cases h : p a with
    | true => rw [List.find?_cons_of_pos t h, List.filter_cons_of_pos h]; rfl
    | false =>
      rw [List.find?_cons_of_neg t (by simp [h]), List.filter_cons_of_neg (by simp [h])]
      exact ih

theorem perm_eq_of_length_le_one {α : Type} {l1 l2 : List α} (h : l1.Perm l2)
    (hl : l1.length ≤ 1) : l1 = l2 := by
  cases l1 with
  | nil => exact h.nil_eq
  | cons a t =>
    cases t with
    | nil => exact (List.perm_singleton.mp h.symm).symm
    | cons b t2 => simp [List.length_cons] at hl

theorem find?_perm_of_subsingleton {α : Type} (p : α → Bool) {l1 l2 : List α}
    (h : l1.Perm l2) (hs : (l1.filter p).length ≤ 1) :
    l1.find? p = l2.find? p := by
  rw [find?_eq_head_filter, find?_eq_head_filter,
    perm_eq_of_length_le_one (h.filter p) hs]

/-- Listing-equivalent entries with at most one `.pth` candidate
contribute the same index item. -/
theorem contribEntry_equiv (root : String) :
    ∀ {e1 e2 : FsEntry}, EntryEquiv e1 e2 → dirUnique e1 →
      contribEntry root e1 = contribEntry root e2
  | .dir n1 f1, .dir n2 f2, he, hu => by
    obtain ⟨hn, hp⟩ := he
    subst hn
    unfold contribEntry
    dsimp only
    rw [find?_perm_of_subsingleton isPth hp hu]
  | .file n1, .file n2, he, _ => by
    have hn : n1 = n2 := he
    subst hn
    rfl
  | .dir _ _, .file _, he, _ => he.elim
  | .file _, .dir _ _, he, _ => he.elim

theorem filterMap_contrib_forall2 (root : String) {l1 l' : List FsEntry}
    (hf : List.Forall₂ EntryEquiv l1 l') :
    (∀ e ∈ l1, dirUnique e) →
    l1.filterMap (contribEntry root) = l'.filterMap (contribEntry root) := by
  induction hf with
  | nil => intro _; rfl
  | cons h1 h2 ih =>
    intro hu
    rw [List.filterMap_cons, List.filterMap_cons]
    rw [contribEntry_equiv root h1 (hu _ (List.mem_cons_self _ _))]
    rw [ih (fun e hm => hu e (List.mem_cons_of_mem _ hm))]

theorem dictSet_append {acc : List (String × IndexEntry)} {k : String}
    (v : IndexEntry) (h : k ∉ acc.map Prod.fst) :
    dictSet acc k v = acc ++ [(k, v)] := by
  induction acc with
  | nil => rfl
  | cons p rest ih =>
    rcases p with ⟨k', v'⟩
    have h1 : ¬ (k' = k) := fun he => h (by simp [he])
    have h2 : k ∉ rest.map Prod.fst := fun hm => h (by simp [hm])
    unfold dictSet
    rw [if_neg h1, ih h2]
    rfl

theorem buildFromList_eq_append {α : Type} (contrib : α → Option (String × IndexEntry)) :
    ∀ (l : List α) (acc : List (String × IndexEntry)),
      ((acc ++ l.filterMap contrib).map Prod.fst).Nodup →
      buildFromList contrib l acc = acc ++ l.filterMap contrib := by
  intro l
  induction l with
  | nil => intro acc h; simp [buildFromList]
  | cons e rest ih =>
    intro acc h
    unfold buildFromList
    cases hc : contrib e with
    | none =>
      rw [List.filterMap_cons, hc] at h ⊢
      dsimp only at h ⊢
      exact ih acc h
    | some p =>
      rcases p with ⟨k, v⟩
      rw [List.filterMap_cons, hc] at h ⊢
      dsimp only at h ⊢
      have hk : k ∉ acc.map Prod.fst := by
        rw [List.map_append] at h
        rcases (List.nodup_append.mp h) with ⟨_, _, hdis⟩
        intro hmem
        exact hdis hmem (by simp)
      rw [dictSet_append v hk]
      have h' : (((acc ++ [(k, v)]) ++ rest.filterMap contrib).map Prod.fst).Nodup := by
        simpa [List.append_assoc] using h
      rw [ih (acc ++ [(k, v)]) h']
      simp [List.append_assoc]

theorem buildFromList_eq {α : Type} (contrib : α → Option (String × IndexEntry))
    (l : List α) (h : ((l.filterMap contrib).map Prod.fst).Nodup) :
    buildFromList contrib l [] = l.filterMap contrib := by
  simpa using buildFromList_eq_append contrib l [] (by simpa using h)

theorem dictGet_eq_find? (k : String) (l : List (String × IndexEntry)) :
    dictGet k l = (l.find? (fun p => decide (p.1 = k))).map Prod.snd := by
  induction l with
  | nil => rfl
  | cons p rest ih =>
    rcases p with ⟨k', v⟩
    unfold dictGet
    by_cases h : k' = k
    · rw [if_pos h]
      simp [List.find?, h]
    · rw [if_neg h]
      simp [List.find?, h, ih]

theorem filter_key_length_le_one (k : String) (l : List (String × IndexEntry))
    (h : (l.map Prod.fst).Nodup) :
    (l.filter (fun p => decide (p.1 = k))).length ≤ 1 := by
  induction l with
  | nil => simp
  | cons p rest ih =>
    rcases p with ⟨k', v⟩
    rw [List.map_cons, List.nodup_cons] at h
    obtain ⟨hk, hrest⟩ := h
    by_cases hkk : k' = k
    · subst hkk
      rw [List.filter_cons_of_pos (by simp)]
      have hnil : rest.filter (fun p => decide (p.1 = k')) = [] := by
        rw [List.filter_eq_nil_iff]
        intro p hp hdec
        have he : p.1 = k' := by simpa using hdec
        have hmem : p.1 ∈ rest.map Prod.fst := List.mem_map_of_mem Prod.fst hp
        rw [he] at hmem
        exact hk hmem
      simp [hnil]
    · rw [List.filter_cons_of_neg (by simp [hkk])]
      exact ih hrest

theorem dictGet_perm (k : String) {l1 l2 : List (String × IndexEntry)}
    (hp : l1.Perm l2) (h : (l1.map Prod.fst).Nodup) :
    dictGet k l1 = dictGet k l2 := by
  rw [dictGet_eq_find?, dictGet_eq_find?,
    find?_perm_of_subsingleton _ hp (filter_key_length_le_one k l1 h)]

theorem char_eq_of_toNat_eq {a b : Char} (h : Char.toNat a = Char.toNat b) : a = b :=
  Char.eq_of_val_eq (UInt32.ext h)

theorem charsLe_total : ∀ a b : List Char, charsLe a b = true ∨ charsLe b a = true
  | [], _ => Or.inl (by simp [charsLe])
  | _ :: _, [] => Or.inr (by simp [charsLe])
  | x :: xs, y :: ys => by
    simp only [charsLe, Bool.or_eq_true, Bool.and_eq_true, decide_eq_true_eq]
    rcases Nat.lt_trichotomy x.toNat y.toNat with h | h | h
    · exact Or.inl (Or.inl h)
    · have hxy : x = y := char_eq_of_toNat_eq h
      subst hxy
      rcases charsLe_total xs ys with h2 | h2
      · exact Or.inl (Or.inr ⟨rfl, h2⟩)
      · exact Or.inr (Or.inr ⟨rfl, h2⟩)
    · exact Or.inr (Or.inl h)

theorem charsLe_trans : ∀ a b c : List Char,
    charsLe a b = true → charsLe b c = true → charsLe a c = true
  | [], b, c, _, _ => by simp [charsLe]
  | x :: xs, [], c, hab, _ => by simp [charsLe] at hab
  | x :: xs, y :: ys, [], _, hbc => by simp [charsLe] at hbc
  | x :: xs, y :: ys, z :: zs, hab, hbc => by
    simp only [charsLe, Bool.or_eq_true, Bool.and_eq_true, decide_eq_true_eq] at hab hbc ⊢
    rcases hab with h1 | ⟨he1, hr1⟩
    · rcases hbc with h2 | ⟨he2, hr2⟩
      · exact Or.inl (Nat.lt_trans h1 h2)
      · exact Or.inl (he2 ▸ h1)
    · rcases hbc with h2 | ⟨he2, hr2⟩
      · exact Or.inl (by rw [he1]; exact h2)
      · exact Or.inr ⟨he1.trans he2, charsLe_trans xs ys zs hr1 hr2⟩

theorem charsLe_antisymm : ∀ a b : List Char,
    charsLe a b = true → charsLe b a = true → a = b
  | [], [], _, _ => rfl
  | [], _ :: _, _, hba => by simp [charsLe] at hba
  | _ :: _, [], hab, _ => by simp [charsLe] at hab
  | x :: xs, y :: ys, hab, hba => by
    simp only [charsLe, Bool.or_eq_true, Bool.and_eq_true, decide_eq_true_eq] at hab hba
    rcases hab with h1 | ⟨he1, hr1⟩
    · rcases hba with h2 | ⟨he2, hr2⟩
      · omega
      · omega
    · rcases hba with h2 | ⟨he2, hr2⟩
      · omega
      · rw [char_eq_of_toNat_eq he1, charsLe_antisymm xs ys hr1 hr2]

theorem insertByKey_perm (p : String × IndexEntry) (l : List (String × IndexEntry)) :
    (insertByKey p l).Perm (p :: l) := by
  induction l with
  | nil => exact List.Perm.refl _
  | cons q rest ih =>
    unfold insertByKey
    by_cases h : keyLe p q = true
    · rw [if_pos h]
    · rw [if_neg h]
      exact (ih.cons q).trans (List.Perm.swap p q rest)

theorem sortByKey_perm (l : List (String × IndexEntry)) : (sortByKey l).Perm l := by
  induction l with
  | nil => exact List.Perm.refl _
  | cons p rest ih =>
    unfold sortByKey
    exact (insertByKey_perm p (sortByKey rest)).trans (ih.cons p)

theorem insertByKey_pairwise (p : String × IndexEntry) (l : List (String × IndexEntry))
    (h : l.Pairwise (fun a b => keyLe a b = true)) :
    (insertByKey p l).Pairwise (fun a b => keyLe a b = true) := by
  induction l with
  | nil => simp [insertByKey]
  | cons q rest ih =>
    obtain ⟨hq, hrest⟩ := List.pairwise_cons.mp h
    unfold insertByKey
    by_cases hpq : keyLe p q = true
    · rw [if_pos hpq]
      refine List.pairwise_cons.mpr ⟨?_, h⟩
      intro x hx
      rcases List.mem_cons.mp hx with he | hm
      · subst he; exact hpq
      · exact charsLe_trans _ _ _ hpq (hq x hm)
    · rw [if_neg hpq]
      have hqp : keyLe q p = true := by
        rcases charsLe_total p.1.data q.1.data with h1 | h1
        · exact absurd h1 hpq
        · exact h1
      refine List.pairwise_cons.mpr ⟨?_, ih hrest⟩
      intro x hx
      have hx' := (insertByKey_perm p rest).mem_iff.mp hx
      rcases List.mem_cons.mp hx' with he | hm
      · subst he; exact hqp
      · exact hq x hm

theorem sortByKey_pairwise (l : List (String × IndexEntry)) :
    (sortByKey l).Pairwise (fun a b => keyLe a b = true) := by
  induction l with
  | nil => simp [sortByKey]
  | cons p rest ih =>
    unfold sortByKey
    exact insertByKey_pairwise p (sortByKey rest) ih

/-- Two key-sorted association lists with the same items and no
duplicate keys are equal. -/
theorem pairwise_perm_nodupkeys_eq :
    ∀ {l1 l2 : List (String × IndexEntry)}, l1.Perm l2 →
      l1.Pairwise (fun a b => keyLe a b = true) →
      l2.Pairwise (fun a b => keyLe a b = true) →
      (l1.map Prod.fst).Nodup → l1 = l2 := by
  intro l1
  induction l1 with
  | nil => intro l2 hp _ _ _; exact hp.nil_eq
  | cons a t1 ih =>
    intro l2 hp hs1 hs2 hnd
    cases l2 with
    | nil => exact absurd hp.symm.nil_eq (by simp)
    | cons b t2 =>
      have hab : a = b := by
        have hain : a ∈ b :: t2 := hp.mem_iff.mp (List.mem_cons_self a t1)
        have hbin : b ∈ a :: t1 := hp.symm.mem_iff.mp (List.mem_cons_self b t2)
        rcases List.mem_cons.mp hain with he | hm
        · exact he
        rcases List.mem_cons.mp hbin with he2 | hm2
        · exact he2.symm
        exfalso
        have h1 : keyLe a b = true := (List.pairwise_cons.mp hs1).1 b hm2
        have h2 : keyLe b a = true := (List.pairwise_cons.mp hs2).1 a hm
        have hk : a.1 = b.1 :=
          String.ext (charsLe_antisymm a.1.data b.1.data h1 h2)
        have : a.1 ∈ t1.map Prod.fst := by
          rw [hk]; exact List.mem_map_of_mem Prod.fst hm2
        exact (List.nodup_cons.mp hnd).1 this
      subst hab
      rw [ih hp.cons_inv (List.pairwise_cons.mp hs1).2 (List.pairwise_cons.mp hs2).2
        (List.nodup_cons.mp hnd).2]

/-- C3 (amended): the builder's output is independent of enumeration
order provided the tree is unambiguous — every property directory holds
at most one `.pth` candidate and no property identifier is contributed
twice; then two listings of the same tree give indexes that agree on
every key and serialize to byte-identical sorted JSON. -/
theorem build_index_listing_invariant (root : String) (t1 t2 : Tree)
    (hs : TreeSameListing t1 t2) (hok : TreeOk root t1) :
    (∀ k, dictGet k (buildPropertyIndex root t1) = dictGet k (buildPropertyIndex root t2)) ∧
    serializeIndex (buildPropertyIndex root t1) =
      serializeIndex (buildPropertyIndex root t2) := by
  rcases t1 with ⟨fd1, rg1⟩
  rcases t2 with ⟨fd2, rg2⟩
  cases fd1 with
  | some l1 =>
    cases fd2 with
    | none => exact hs.elim
    | some l2 =>
      obtain ⟨l', hf, hp⟩ := hs
      obtain ⟨hu, hnd⟩ := hok
      have h1 : buildPropertyIndex root ⟨some l1, rg1⟩ = l1.filterMap (contribEntry root) :=
        buildFromList_eq _ l1 hnd
      have heq : l1.filterMap (contribEntry root) = l'.filterMap (contribEntry root) :=
        filterMap_contrib_forall2 root hf hu
      have hperm2 : (l1.filterMap (contribEntry root)).Perm (l2.filterMap (contribEntry root)) := by
        rw [heq]; exact hp.filterMap _
      have hnd2 : ((l2.filterMap (contribEntry root)).map Prod.fst).Nodup :=
        ((hperm2.map Prod.fst).nodup_iff).mp hnd
      have h2 : buildPropertyIndex root ⟨some l2, rg2⟩ = l2.filterMap (contribEntry root) :=
        buildFromList_eq _ l2 hnd2
      have hpermb : (buildPropertyIndex root ⟨some l1, rg1⟩).Perm
          (buildPropertyIndex root ⟨some l2, rg2⟩) := by
        rw [h1, h2]; exact hperm2
      have hndb : ((buildPropertyIndex root ⟨some l1, rg1⟩).map Prod.fst).Nodup := by
        rw [h1]; exact hnd
      refine ⟨fun k => dictGet_perm k hpermb hndb, ?_⟩
      unfold serializeIndex
      congr 1
      apply pairwise_perm_nodupkeys_eq
      · exact (sortByKey_perm _).trans (hpermb.trans (sortByKey_perm _).symm)
      · exact sortByKey_pairwise _
      · exact sortByKey_pairwise _
      · exact (((sortByKey_perm _).map Prod.fst).nodup_iff).mpr hndb
  | none =>
    cases fd2 with
    | some l2 => exact hs.elim
    | none =>
      have hp : rg1.Perm rg2 := hs
      have hnd : ((rg1.filterMap (contribRglob root)).map Prod.fst).Nodup := hok
      have h1 : buildPropertyIndex root ⟨none, rg1⟩ = rg1.filterMap (contribRglob root) :=
        buildFromList_eq _ rg1 hnd
      have hperm2 : (rg1.filterMap (contribRglob root)).Perm (rg2.filterMap (contribRglob root)) :=
        hp.filterMap _
      have hnd2 : ((rg2.filterMap (contribRglob root)).map Prod.fst).Nodup :=
        ((hperm2.map Prod.fst).nodup_iff).mp hnd
      have h2 : buildPropertyIndex root ⟨none, rg2⟩ = rg2.filterMap (contribRglob root) :=
        buildFromList_eq _ rg2 hnd2
      have hpermb : (buildPropertyIndex root ⟨none, rg1⟩).Perm
          (buildPropertyIndex root ⟨none, rg2⟩) := by
        rw [h1, h2]; exact hperm2
      have hndb : ((buildPropertyIndex root ⟨none, rg1⟩).map Prod.fst).Nodup := by
        rw [h1]; exact hnd
      refine ⟨fun k => dictGet_perm k hpermb hndb, ?_⟩
      unfold serializeIndex
      congr 1
      apply pairwise_perm_nodupkeys_eq
      · exact (sortByKey_perm _).trans (hpermb.trans (sortByKey_perm _).symm)
      · exact sortByKey_pairwise _
      · exact sortByKey_pairwise _
      · exact (((sortByKey_perm _).map Prod.fst).nodup_iff).mpr hndb

/-- C3 counterexample: two listings of the identical directory tree (a
`tg` directory holding `a.pth` and `b.pth`, enumerated in the two
orders) make `_build_property_index` pick different checkpoint files, so
index content and the persisted sorted JSON bytes differ — the builder
is not deterministic with respect to filesystem iteration order. -/
theorem build_index_determinism_counterexample :
    TreeSameListing tOrd1 tOrd2 ∧
    dictGet "tg" (buildPropertyIndex "/ckpt" tOrd1) ≠
      dictGet "tg" (buildPropertyIndex "/ckpt" tOrd2) ∧
    serializeIndex (buildPropertyIndex "/ckpt" tOrd1) ≠
      serializeIndex (buildPropertyIndex "/ckpt" tOrd2) := by
  refine ⟨?_, by decide, by decide⟩
  refine ⟨[.dir "tg" ["b.pth", "a.pth"]], ?_, ?_⟩
  · exact List.Forall₂.cons ⟨rfl, List.Perm.swap "b.pth" "a.pth" []⟩ List.Forall₂.nil
  · exact List.Perm.refl _

/-- C3 witness for the amended claim: a two-property tree with one
checkpoint per directory, listed in opposite orders, builds
lookup-identical indexes and byte-identical persisted JSON. -/
theorem build_index_listing_invariant_witness :
    TreeSameListing tUniq1 tUniq2 ∧ TreeOk "/ckpt" tUniq1 ∧
    dictGet "eps" (buildPropertyIndex "/ckpt" tUniq1) =
      dictGet "eps" (buildPropertyIndex "/ckpt" tUniq2) ∧
    serializeIndex (buildPropertyIndex "/ckpt" tUniq1) =
      serializeIndex (buildPropertyIndex "/ckpt" tUniq2) := by
  have hsame : TreeSameListing tUniq1 tUniq2 := by
    refine ⟨[.dir "eps" ["best_model.pth"], .dir "tg" ["m.pth"]], ?_, ?_⟩
    · exact List.Forall₂.cons ⟨rfl, List.Perm.refl _⟩
        (List.Forall₂.cons ⟨rfl, List.Perm.refl _⟩ List.Forall₂.nil)
    · exact List.Perm.swap _ _ _
  have hok : TreeOk "/ckpt" tUniq1 := by
    constructor
    · intro e he
      rcases List.mem_cons.mp he with rfl | he2
      · exact (by decide : (["best_model.pth"].filter isPth).length ≤ 1)
      rcases List.mem_cons.mp he2 with rfl | he3
      · exact (by decide : (["m.pth"].filter isPth).length ≤ 1)
      · exact absurd he3 (by simp)
    · decide
  have h := build_index_listing_invariant "/ckpt" tUniq1 tUniq2 hsame hok
  exact ⟨hsame, hok, h.1 "eps", h.2⟩

end PerioGT
